import Mathlib

/-!
Verification of the single-parlay quoter against its specification.

The development shallowly embeds the core of the repository:
  * `src/app.py` — the RFQ matcher (`matches_target_market`), the leg
    classifier (`extract_market_type`), the quote-sending path
    (`send_quote`), the stream-event handler (`handle_ws_message`) and
    the orchestrator's confirmation update (`app_confirm_update`);
  * `src/kalshi_client.py` — the signed REST client's quote-lifecycle
    calls (`create_quote`, both definitions, and `confirm_quote` with
    its three-attempt retry loop).

Python dictionaries holding event payloads are embedded as structures
whose optional fields are `Option String` (a missing key reads as
`none`, mirroring `dict.get`).  Network and clock effects are passed in
as explicit oracles so that the retry loop, the signatures it
regenerates and the waits it performs are all visible in the result.
-/

set_option maxRecDepth 4000

namespace SingleParlayQuoter

/-! ## String containment, as Python's `in` operator on `str` -/

/-- `containsSubAux pat l` is true when `pat` occurs as a contiguous
sublist of `l` (Python's `pat in s` on the character lists). -/
def containsSubAux (pat : List Char) : List Char → Bool
  | [] => pat.isEmpty
  | c :: cs => pat.isPrefixOf (c :: cs) || containsSubAux pat cs

/-- Python's `pat in s` substring test. -/
def containsSub (s pat : String) : Bool :=
  containsSubAux pat.data s.data

/-- Python's `str.upper()` (ASCII case mapping), defined by mapping over
the character list so that it evaluates by kernel reduction. -/
def pyUpper (s : String) : String :=
  ⟨s.data.map Char.toUpper⟩

/-- Python's `str.lower()` (ASCII case mapping). -/
def pyLower (s : String) : String :=
  ⟨s.data.map Char.toLower⟩

/-- Drop leading whitespace from a character list. -/
def dropLeadingWs : List Char → List Char
  | [] => []
  | c :: cs => if c.isWhitespace then dropLeadingWs cs else c :: cs

/-- Python's `str.strip()` with no arguments: remove surrounding whitespace. -/
def pyStrip (s : String) : String :=
  ⟨(dropLeadingWs (dropLeadingWs s.data).reverse).reverse⟩

/-! ## Leg classifier — `extract_market_type` (src/app.py lines 196-270)

The Python body cannot raise on string inputs (the `except` clause
guards against non-string inputs only), so the embedding is the `try`
body as a total function. -/

/-- `extract_market_type(leg_ticker, side)` from src/app.py: ordered
substring rules per league, returning a (sport, category) pair. -/
def extract_market_type (leg_ticker : String) (side : String) : String × String :=
  let tu := pyUpper leg_ticker
  let su := pyUpper side
  if containsSub tu "NFL" then
    if containsSub tu "SPRD" || containsSub tu "SPREAD" then ("NFL", "Spreads")
    else if containsSub tu "TOTL" || containsSub tu "TOTAL" ||
        containsSub su "OVER" || containsSub su "UNDER" then ("NFL", "Totals")
    else if containsSub tu "NFLGAME" then ("NFL", "Moneylines")
    else if containsSub tu "NFLANYTD" || containsSub tu "NFLFIRSTTD" then
      ("NFL", "Player Props - Touchdowns")
    else if containsSub tu "NFLSINGLEGAME" || containsSub tu "VENFLSINGLEGAME" then
      if containsSub tu "PASS" || containsSub tu "YDS" then ("NFL", "Player Props - Passing")
      else if containsSub tu "RUSH" then ("NFL", "Player Props - Rushing")
      else if containsSub tu "REC" then ("NFL", "Player Props - Receiving")
      else ("NFL", "Player Props - Other")
    else ("NFL", "Other")
  else if containsSub tu "NBA" then
    if containsSub tu "SPRD" || containsSub tu "SPREAD" then ("NBA", "Spreads")
    else if containsSub tu "TOTL" || containsSub tu "TOTAL" ||
        containsSub su "OVER" || containsSub su "UNDER" then ("NBA", "Totals")
    else if containsSub tu "NBAGAME" then ("NBA", "Moneylines")
    else if containsSub tu "NBAPTS" || containsSub tu "POINTS" then
      ("NBA", "Player Props - Points")
    else if containsSub tu "AST" || containsSub tu "ASSISTS" then
      ("NBA", "Player Props - Assists")
    else if containsSub tu "REB" || containsSub tu "REBOUNDS" then
      ("NBA", "Player Props - Rebounds")
    else if containsSub tu "THREE" || containsSub tu "3PT" then
      ("NBA", "Player Props - Threes")
    else if containsSub tu "NBASINGLEGAME" || containsSub tu "VENBASINGLEGAME" then
      ("NBA", "Player Props - Other")
    else ("NBA", "Other")
  else if containsSub tu "NHL" then
    if containsSub tu "SPRD" || containsSub tu "SPREAD" then ("NHL", "Spreads")
    else if containsSub tu "TOTL" || containsSub tu "TOTAL" ||
        containsSub su "OVER" || containsSub su "UNDER" then ("NHL", "Totals")
    else if containsSub tu "NHLGAME" then ("NHL", "Moneylines")
    else ("NHL", "Other")
  else if containsSub tu "SPORTSMULTIGAME" then ("Other", "Multi-Game Parlays")
  else ("Other", "Unknown")

/-! Keyword predicates used to state the classifier claims (these
formalise the spec's vocabulary; the classifier itself is above). -/

/-- The identifier mentions one of the recognised leagues. -/
def hasLeagueKw (tu : String) : Bool :=
  containsSub tu "NFL" || containsSub tu "NBA" || containsSub tu "NHL"

/-- A spread keyword occurs in the identifier. -/
def hasSpreadKw (tu : String) : Bool :=
  containsSub tu "SPRD" || containsSub tu "SPREAD"

/-- The total rule's condition (ticker keywords, or OVER/UNDER on the side). -/
def hasTotalCond (tu su : String) : Bool :=
  containsSub tu "TOTL" || containsSub tu "TOTAL" ||
    containsSub su "OVER" || containsSub su "UNDER"

/-- Which league branch the classifier dispatches to. -/
def leagueOf (tu : String) : Option String :=
  if containsSub tu "NFL" then some "NFL"
  else if containsSub tu "NBA" then some "NBA"
  else if containsSub tu "NHL" then some "NHL"
  else none

/-- The moneyline keyword of the dispatched league occurs in the identifier. -/
def hasMoneylineKw (tu : String) : Bool :=
  match leagueOf tu with
  | some lg => containsSub tu (lg ++ "GAME")
  | none => false

/-- A player-prop keyword of the dispatched league occurs in the identifier. -/
def hasPropKw (tu : String) : Bool :=
  match leagueOf tu with
  | some "NFL" =>
    containsSub tu "NFLANYTD" || containsSub tu "NFLFIRSTTD" ||
      containsSub tu "NFLSINGLEGAME" || containsSub tu "VENFLSINGLEGAME"
  | some "NBA" =>
    containsSub tu "NBAPTS" || containsSub tu "POINTS" ||
      containsSub tu "AST" || containsSub tu "ASSISTS" ||
      containsSub tu "REB" || containsSub tu "REBOUNDS" ||
      containsSub tu "THREE" || containsSub tu "3PT" ||
      containsSub tu "NBASINGLEGAME" || containsSub tu "VENBASINGLEGAME"
  | _ => false

/-! ## RFQ matcher — `matches_target_market` (src/app.py lines 273-304) -/

/-- One leg of an RFQ, as read from `mve_selected_legs` entries
(`dict.get` with `''` defaults collapses missing keys to `""`). -/
structure RfqLeg where
  market_ticker : String
  side : String
deriving DecidableEq, Repr

/-- The slice of an RFQ payload the matcher reads. -/
structure RfqData where
  mve_selected_legs : List RfqLeg
deriving DecidableEq, Repr

/-- The set of uppercased `side:market_ticker` identifiers of the RFQ's
legs (built as `rfq_leg_tickers` in the source). -/
def rfq_leg_tickers (rfq : RfqData) : List String :=
  rfq.mve_selected_legs.map (fun leg => pyUpper (leg.side ++ ":" ++ leg.market_ticker))

/-- `matches_target_market(rfq_data)` reading the selected target legs:
false when no target legs are selected, else the uppercased target set
must be a subset of the RFQ's leg identifiers. -/
def matches_target_market (selected_target_legs : List String) (rfq : RfqData) : Bool :=
  if selected_target_legs.isEmpty then false
  else (selected_target_legs.map (fun leg => pyUpper leg)).all
    (fun t => (rfq_leg_tickers rfq).contains t)

/-! ## Quote history and orchestrator state (src/app.py) -/

/-- One entry of `quote_history`.  Keys absent from a Python entry
(`quote_id` on error entries, `matched` before any match event) are
embedded as `none` / `false`, matching what `dict.get` reads back. -/
structure QuoteEntry where
  timestamp : String
  rfq_id : String
  quote_id : Option String
  market_ticker : String
  yes_bid : String
  no_bid : String
  status : String
  matched : Bool
  matched_at : Option String
  error : Option String
deriving DecidableEq, Repr

/-- The shape of a successful create-quote response that `send_quote`
reads: `result.get('quote', {}).get('quote_id')` when the `'quote'` key
is present, otherwise `result.get('quote_id')`. -/
structure CreateResult where
  has_quote_key : Bool
  quote_quote_id : Option String
  top_quote_id : Option String
deriving DecidableEq, Repr

/-- The quote-id extraction in `send_quote` (src/app.py line 412). -/
def extract_quote_id (r : CreateResult) : Option String :=
  if r.has_quote_key then r.quote_quote_id else r.top_quote_id

/-- `send_quote(rfq_id, market_ticker)` (src/app.py lines 373-486): its
effect on `quote_history` and its return value, parameterised by the
outcome of the REST `create_quote` call.  A success appends a `"sent"`
entry and returns the extracted quote id; any exception appends an
`"error"` entry and returns nothing. -/
def send_quote (now rfq_id market_ticker yes_bid no_bid : String)
    (outcome : Except String CreateResult)
    (quote_history : List QuoteEntry) : List QuoteEntry × Option String :=
  match outcome with
  | .ok result =>
    let entry : QuoteEntry :=
      { timestamp := now, rfq_id := rfq_id, quote_id := extract_quote_id result,
        market_ticker := market_ticker, yes_bid := yes_bid, no_bid := no_bid,
        status := "sent", matched := false, matched_at := none, error := none }
    (quote_history ++ [entry], extract_quote_id result)
  | .error e =>
    let entry : QuoteEntry :=
      { timestamp := now, rfq_id := rfq_id, quote_id := none,
        market_ticker := market_ticker, yes_bid := yes_bid, no_bid := no_bid,
        status := "error", matched := false, matched_at := none, error := some e }
    (quote_history ++ [entry], none)

/-- One entry of `accepted_quotes` (src/app.py lines 600-611). -/
structure AcceptedEntry where
  timestamp : String
  quote_id : Option String
  rfq_id : Option String
  market_ticker : String
  yes_price : Option String
  no_price : Option String
  confirmed : Bool
  auto_confirmed : Bool
  confirmation_error : Option String
  confirmation_time : Option String
deriving DecidableEq, Repr

/-- The orchestrator's module-level mutable state read and written by
the stream handler. -/
structure AppState where
  quote_history : List QuoteEntry
  accepted_quotes : List AcceptedEntry
  auto_confirm_enabled : Bool
deriving DecidableEq, Repr

/-- The `for quote in quote_history: if quote.get('quote_id') == quote_id:
quote['matched'] = True; ...; break` loops of `handle_ws_message`:
update the first entry whose quote id matches, leave the rest. -/
def mark_matched (now : String) (quote_id : Option String) :
    List QuoteEntry → List QuoteEntry
  | [] => []
  | q :: qs =>
    if q.quote_id == quote_id then
      { q with matched := true, matched_at := some now } :: qs
    else q :: mark_matched now quote_id qs

/-- A decoded stream frame, discriminated on its `type` field as
`handle_ws_message` does; payload fields are read with `dict.get`. -/
inductive WsMessage where
  | rfq_created (rfq : RfqData)
  | rfq_deleted (rfq_id : Option String)
  | quote_accepted (quote_id rfq_id : Option String) (market_ticker : String)
      (yes_price no_price : Option String)
  | quote_created (quote_id : Option String)
  | quote_confirmed (quote_id : Option String)
  | other
deriving DecidableEq, Repr

/-- A background task spawned with `asyncio.create_task` by the handler. -/
inductive DispatchedTask where
  | handle_rfq_task (rfq : RfqData)
  | confirm_quote_task (quote_id rfq_id : Option String) (market_ticker : String)
deriving DecidableEq, Repr

/-- `handle_ws_message(message_data)` (src/app.py lines 577-642): the
synchronous state update plus the list of tasks it dispatches.  On
`quote_accepted` the entry is appended with `confirmed=False`, its
`auto_confirmed` flag is flipped to the current auto-confirm setting
before the confirm task is dispatched, and the sent-quote history entry
with the same quote id is marked matched. -/
def handle_ws_message (now : String) (st : AppState) (msg : WsMessage) :
    AppState × List DispatchedTask :=
  match msg with
  | .rfq_created rfq => (st, [.handle_rfq_task rfq])
  | .rfq_deleted _ => (st, [])
  | .quote_accepted quote_id rfq_id market_ticker yes_price no_price =>
    let accepted_entry : AcceptedEntry :=
      { timestamp := now, quote_id := quote_id, rfq_id := rfq_id,
        market_ticker := market_ticker, yes_price := yes_price, no_price := no_price,
        confirmed := false, auto_confirmed := st.auto_confirm_enabled,
        confirmation_error := none, confirmation_time := none }
    let tasks :=
      if st.auto_confirm_enabled then
        [DispatchedTask.confirm_quote_task quote_id rfq_id market_ticker]
      else []
    ({ st with accepted_quotes := st.accepted_quotes ++ [accepted_entry],
               quote_history := mark_matched now quote_id st.quote_history }, tasks)
  | .quote_created quote_id =>
    ({ st with quote_history := mark_matched now quote_id st.quote_history }, [])
  | .quote_confirmed quote_id =>
    ({ st with quote_history := mark_matched now quote_id st.quote_history }, [])
  | .other => (st, [])

/-- The orchestrator-level `confirm_quote` (src/app.py lines 489-574):
its effect on `accepted_quotes`, parameterised by the REST call's
outcome.  It updates the first entry with the matching quote id:
success sets `confirmed=True` with a timestamp; failure sets
`confirmed=False` and records the error.  `auto_confirmed` is never
touched. -/
def app_confirm_update (quote_id : Option String) (outcome : Except String Unit)
    (now : String) : List AcceptedEntry → List AcceptedEntry
  | [] => []
  | q :: qs =>
    if q.quote_id == quote_id then
      (match outcome with
       | .ok _ => { q with confirmed := true, confirmation_time := some now }
       | .error e => { q with confirmed := false, confirmation_error := some e }) :: qs
    else q :: app_confirm_update quote_id outcome now qs

end SingleParlayQuoter

namespace KalshiClient

/-! ## Signed REST client (src/kalshi_client.py)

The RSA-PSS signing primitive and the wall clock are passed in as
oracles (`sign : String → String`, `clock : Nat → String`): the client
code treats both as black boxes, and the claims are about which
messages get signed and when, not about RSA itself. -/

/-- `_create_signature` strips query parameters before signing. -/
def strip_query (path : String) : String :=
  (path.splitOn "?").headD path

/-- The message signed by `_create_signature(timestamp, method, path)`. -/
def sign_message (ts method path : String) : String :=
  ts ++ method ++ strip_query path

/-- `_get_auth_headers(method, path)`: key id, signature over
timestamp+method+path, and the timestamp itself. -/
def get_auth_headers (api_key_id : String) (sign : String → String)
    (ts method path : String) : List (String × String) :=
  [("KALSHI-ACCESS-KEY", api_key_id),
   ("KALSHI-ACCESS-SIGNATURE", sign (sign_message ts method path)),
   ("KALSHI-ACCESS-TIMESTAMP", ts)]

/-- The confirm endpoint path for a quote id. -/
def confirm_path (quote_id : String) : String :=
  "/trade-api/v2/communications/quotes/" ++ quote_id ++ "/confirm"

/-- The headers `confirm_quote` sends on each attempt: the three auth
headers, plus the `Content-Type` header the code adds right after
(src/kalshi_client.py line 310). -/
def confirm_headers (api_key_id : String) (sign : String → String)
    (ts quote_id : String) : List (String × String) :=
  get_auth_headers api_key_id sign ts "PUT" (confirm_path quote_id) ++
    [("Content-Type", "application/json")]

/-- An HTTP request as `confirm_quote` finally sends it: prepared from
`requests.Request('PUT', url, headers=auth_headers)` with no data, then
with the auto-added `Content-Length` header deleted (lines 324-329). -/
structure PreparedHttpRequest where
  method : String
  url : String
  headers : List (String × String)
  body : Option String
deriving DecidableEq, Repr

/-- The request issued by one attempt of `confirm_quote`. -/
def confirm_prepared_request (api_base api_key_id : String) (sign : String → String)
    (ts quote_id : String) : PreparedHttpRequest :=
  { method := "PUT"
    url := api_base ++ confirm_path quote_id
    headers := confirm_headers api_key_id sign ts quote_id
    body := none }

/-- The `request_info` dict stored for diagnostics (lines 313-317). -/
structure RequestInfo where
  method : String
  url : String
  headers : List (String × String)
deriving DecidableEq, Repr

/-- What the network returns for one attempt: a response with a status
code and body text, or a raised exception. -/
inductive NetOutcome where
  | resp (status : Nat) (text : String)
  | exc (msg : String)
deriving DecidableEq, Repr

/-- The body of a successful confirmation result: parsed from a 200
response with a body, or the synthetic `{'status': 'confirmed',
'quote_id': quote_id}` dict for 204 / empty responses. -/
inductive ConfirmBody where
  | parsed (text : String)
  | synthetic (status : String) (quote_id : String)
deriving DecidableEq, Repr

/-- A successful confirmation result, with the `_request_info` the code
attaches before returning. -/
structure ConfirmResult where
  body : ConfirmBody
  request_info : RequestInfo
deriving DecidableEq, Repr

/-- A failed attempt's error, with the `request_info` attached to it. -/
structure ConfirmError where
  msg : String
  request_info : Option RequestInfo
deriving DecidableEq, Repr

/-- An attempt counts as a success exactly when the response status is
200 or 204 (src/kalshi_client.py line 341). -/
def isSuccessStatus (o : NetOutcome) : Bool :=
  match o with
  | .resp s _ => s == 200 || s == 204
  | .exc _ => false

/-- One attempt of the `confirm_quote` retry loop: build fresh headers
from this attempt's timestamp, send, and classify the outcome. -/
def confirm_attempt (api_base api_key_id : String) (sign : String → String)
    (quote_id ts : String) (outcome : NetOutcome) : Except ConfirmError ConfirmResult :=
  let url := api_base ++ confirm_path quote_id
  let ri : RequestInfo := ⟨"PUT", url, confirm_headers api_key_id sign ts quote_id⟩
  match outcome with
  | .resp status text =>
    if status == 200 || status == 204 then
      .ok ⟨if status == 200 && text != "" then .parsed text
           else .synthetic "confirmed" quote_id, ri⟩
    else
      .error ⟨toString status ++ " Client Error for url: " ++ url, some ri⟩
  | .exc m => .error ⟨m, some ri⟩

/-- A record of one performed attempt: the timestamp its signature was
generated from, the headers it sent, and the wait (`time.sleep`, in
milliseconds) performed after it failed, if any. -/
structure AttemptRec where
  timestamp : String
  headers : List (String × String)
  waitAfterMs : Option Nat
deriving DecidableEq, Repr

/-- `confirm_quote(quote_id)` (src/kalshi_client.py lines 293-393): the
`for attempt in range(1, 4)` loop unrolled.  `clock i` is the timestamp
read at attempt `i`, `net i` that attempt's network outcome.  Returns
the trace of performed attempts and the final result: the first
success, or — after three failures — the last error (which carries the
`request_info` of the request last attempted). -/
def confirm_quote (api_base api_key_id : String) (sign : String → String)
    (quote_id : String) (clock : Nat → String) (net : Nat → NetOutcome) :
    List AttemptRec × Except ConfirmError ConfirmResult :=
  let hdrs := fun i => confirm_headers api_key_id sign (clock i) quote_id
  match confirm_attempt api_base api_key_id sign quote_id (clock 1) (net 1) with
  | .ok r => ([⟨clock 1, hdrs 1, none⟩], .ok r)
  | .error _ =>
    match confirm_attempt api_base api_key_id sign quote_id (clock 2) (net 2) with
    | .ok r => ([⟨clock 1, hdrs 1, some 500⟩, ⟨clock 2, hdrs 2, none⟩], .ok r)
    | .error _ =>
      match confirm_attempt api_base api_key_id sign quote_id (clock 3) (net 3) with
      | .ok r =>
        ([⟨clock 1, hdrs 1, some 500⟩, ⟨clock 2, hdrs 2, some 1000⟩,
          ⟨clock 3, hdrs 3, none⟩], .ok r)
      | .error e =>
        ([⟨clock 1, hdrs 1, some 500⟩, ⟨clock 2, hdrs 2, some 1000⟩,
          ⟨clock 3, hdrs 3, none⟩], .error e)

/-! ## `create_quote` — both definitions (src/kalshi_client.py)

The class body defines `create_quote` twice; under Python semantics the
later definition (lines 689-767) silently replaces the earlier one
(lines 202-231). -/

/-- The JSON body both definitions POST to the quotes endpoint. -/
structure QuoteRequestBody where
  rfq_id : String
  yes_bid : String
  no_bid : String
  rest_remainder : Bool
deriving DecidableEq, Repr

/-- The earlier, shadowed `create_quote` (lines 202-231): optional bid
arguments, with `"0.0000"` substituted for an absent bid. -/
def create_quote_v1_body (rfq_id : String) (yes_bid no_bid : Option String)
    (rest_remainder : Bool) : QuoteRequestBody :=
  { rfq_id := rfq_id
    yes_bid := yes_bid.getD "0.0000"
    no_bid := no_bid.getD "0.0000"
    rest_remainder := rest_remainder }

/-! Python's `float(str)` parser, needed because the effective
`create_quote` validates its bids with `float(yes_bid); float(no_bid)`
and catches `ValueError`.  Grammar: optional surrounding whitespace,
optional sign, then `inf`/`infinity`/`nan` (case-insensitive) or a
decimal number `[digits][.digits][e[sign]digits]` with at least one
mantissa digit; underscores are allowed only between digits. -/

/-- Consume further digits of a digit group, allowing `_` only when
sandwiched between digits. -/
def digitTail : List Char → List Char
  | '_' :: c :: cs => if c.isDigit then digitTail cs else '_' :: c :: cs
  | c :: cs => if c.isDigit then digitTail cs else c :: cs
  | [] => []

/-- Consume a digit group (at least one digit); `none` if there is none. -/
def digitPart : List Char → Option (List Char)
  | c :: cs => if c.isDigit then some (digitTail cs) else none
  | [] => none

/-- Consume the mantissa: `digits`, `digits.`, `digits.digits` or `.digits`. -/
def parseMantissa (l : List Char) : Option (List Char) :=
  match digitPart l with
  | some rest =>
    match rest with
    | '.' :: rest2 =>
      match digitPart rest2 with
      | some r => some r
      | none => some rest2
    | _ => some rest
  | none =>
    match l with
    | '.' :: rest2 => digitPart rest2
    | _ => none

/-- Consume an optional exponent `e[sign]digits` (input lowercased). -/
def parseExponent (l : List Char) : Option (List Char) :=
  match l with
  | c :: rest =>
    if c == 'e' then
      match rest with
      | s :: rest2 =>
        if s == '+' || s == '-' then digitPart rest2 else digitPart rest
      | [] => none
    else some l
  | [] => some []

/-- Whether Python's `float(s)` succeeds on the string `s`. -/
def pyFloatParses (s : String) : Bool :=
  let t := SingleParlayQuoter.pyLower (SingleParlayQuoter.pyStrip s)
  let l := t.data
  let l1 := match l with
    | c :: cs => if c == '+' || c == '-' then cs else l
    | [] => []
  if l1 = "inf".data || l1 = "infinity".data || l1 = "nan".data then true
  else
    match parseMantissa l1 with
    | some rest =>
      match parseExponent rest with
      | some [] => true
      | _ => false
    | none => false

/-- The effective `create_quote` (the later definition, lines 689-767):
the body it POSTs.  Bid strings that do not both parse as floats are
silently replaced — both of them — by `"0.50"`; the request is still
sent. -/
def create_quote_body (rfq_id yes_bid no_bid : String) (rest_remainder : Bool) :
    QuoteRequestBody :=
  if pyFloatParses yes_bid && pyFloatParses no_bid then
    { rfq_id := rfq_id, yes_bid := yes_bid, no_bid := no_bid,
      rest_remainder := rest_remainder }
  else
    { rfq_id := rfq_id, yes_bid := "0.50", no_bid := "0.50",
      rest_remainder := rest_remainder }

/-- Calling the effective `create_quote` under Python call semantics:
`yes_bid` and `no_bid` are required positional parameters with no
defaults, so a call that omits either raises `TypeError` before any
request is built. -/
def create_quote_effective_call (rfq_id : String) (yes_bid no_bid : Option String)
    (rest_remainder : Bool) : Except String QuoteRequestBody :=
  match yes_bid, no_bid with
  | some y, some n => .ok (create_quote_body rfq_id y n rest_remainder)
  | _, _ => .error "TypeError: create_quote missing required bid argument"

end KalshiClient

/-! # Theorems -/

namespace SingleParlayQuoter

/-- Helper: the matcher's defining characterisation. -/
theorem matches_target_market_characterisation (target : List String) (rfq : RfqData) :
    matches_target_market target rfq = true ↔
      target ≠ [] ∧ ∀ t ∈ target, pyUpper t ∈ rfq_leg_tickers rfq := by
  unfold matches_target_market
  rcases target with _ | ⟨t, ts⟩
  · simp
  · simp [List.all_eq_true]

/-- C1: the matcher returns true iff the target leg set is non-empty
and every element of it, uppercased, appears among the uppercased
`side:market_ticker` identifiers of the RFQ's legs; in particular an
empty target set never matches, and extra legs on the RFQ beyond the
target set do not break a match. -/
theorem matcher_subset_semantics (target : List String) (rfq : RfqData) :
    (matches_target_market target rfq = true ↔
      target ≠ [] ∧ ∀ t ∈ target, pyUpper t ∈ rfq_leg_tickers rfq) ∧
    matches_target_market [] rfq = false ∧
    (∀ extra : List RfqLeg, matches_target_market target rfq = true →
      matches_target_market target ⟨rfq.mve_selected_legs ++ extra⟩ = true) := by
  refine ⟨matches_target_market_characterisation target rfq, by simp [matches_target_market], ?_⟩
  intro extra h
  rw [matches_target_market_characterisation] at h ⊢
  refine ⟨h.1, fun t ht => ?_⟩
  have := h.2 t ht
  simp only [rfq_leg_tickers, List.map_append, List.mem_append] at this ⊢
  exact Or.inl this

/-- Witness for C1 at a concrete RFQ and target set. -/
theorem matcher_subset_semantics_witness :
    matches_target_market ["yes:NFL-GAME-X"]
      ⟨[⟨"NFL-GAME-X", "YES"⟩, ⟨"NFL-GAME-Y", "no"⟩]⟩ = true :=
  (matcher_subset_semantics ["yes:NFL-GAME-X"]
      ⟨[⟨"NFL-GAME-X", "YES"⟩, ⟨"NFL-GAME-Y", "no"⟩]⟩).1.mpr
    ⟨by decide, by decide⟩

/-- C8: the classifier is total — it always returns a (category,
subcategory) pair — and an identifier mentioning none of the recognised
league or multi-game keywords yields `(Other, Unknown)`. -/
theorem classifier_total_and_unknown (leg_ticker side : String) :
    (containsSub (pyUpper leg_ticker) "NFL" = false →
      containsSub (pyUpper leg_ticker) "NBA" = false →
      containsSub (pyUpper leg_ticker) "NHL" = false →
      containsSub (pyUpper leg_ticker) "SPORTSMULTIGAME" = false →
      extract_market_type leg_ticker side = ("Other", "Unknown")) ∧
    ∃ p : String × String, extract_market_type leg_ticker side = p := by
  refine ⟨fun h1 h2 h3 h4 => ?_, ⟨_, rfl⟩⟩
  simp [extract_market_type, h1, h2, h3, h4]

/-- Witness for C8 on an identifier with no recognised keyword. -/
theorem classifier_total_and_unknown_witness :
    extract_market_type "ELECTION-2026" "yes" = ("Other", "Unknown") :=
  (classifier_total_and_unknown "ELECTION-2026" "yes").1
    (by decide) (by decide) (by decide) (by decide)

/-- C7: any identifier carrying a league keyword together with a spread
keyword classifies with subcategory "Spreads" regardless of the side
argument; and under keyword co-occurrence the precedence spread >
total > moneyline > player-prop determines the subcategory (first
matching rule wins). -/
theorem classifier_precedence (leg_ticker side : String) :
    (hasLeagueKw (pyUpper leg_ticker) = true →
      hasSpreadKw (pyUpper leg_ticker) = true →
      (extract_market_type leg_ticker side).2 = "Spreads") ∧
    (hasLeagueKw (pyUpper leg_ticker) = true →
      hasSpreadKw (pyUpper leg_ticker) = false →
      hasTotalCond (pyUpper leg_ticker) (pyUpper side) = true →
      (extract_market_type leg_ticker side).2 = "Totals") ∧
    (hasLeagueKw (pyUpper leg_ticker) = true →
      hasSpreadKw (pyUpper leg_ticker) = false →
      hasTotalCond (pyUpper leg_ticker) (pyUpper side) = false →
      hasMoneylineKw (pyUpper leg_ticker) = true →
      (extract_market_type leg_ticker side).2 = "Moneylines") ∧
    (hasLeagueKw (pyUpper leg_ticker) = true →
      hasSpreadKw (pyUpper leg_ticker) = false →
      hasTotalCond (pyUpper leg_ticker) (pyUpper side) = false →
      hasMoneylineKw (pyUpper leg_ticker) = false →
      hasPropKw (pyUpper leg_ticker) = true →
      "Player Props".data.isPrefixOf (extract_market_type leg_ticker side).2.data = true) := by
  refine ⟨?_, ?_, ?_, ?_⟩
  · intro hL hS
    simp only [hasLeagueKw, Bool.or_eq_true] at hL
    simp only [hasSpreadKw] at hS
    cases hNFL : containsSub (pyUpper leg_ticker) "NFL"
    · cases hNBA : containsSub (pyUpper leg_ticker) "NBA"
      · rcases hL with (h | h) | h
        · simp [hNFL] at h
        · simp [hNBA] at h
        · simp [extract_market_type, hNFL, hNBA, h, hS]
      · simp [extract_market_type, hNFL, hNBA, hS]
    · simp [extract_market_type, hNFL, hS]
  · intro hL hnS hT
    simp only [hasLeagueKw, Bool.or_eq_true] at hL
    simp only [hasSpreadKw, Bool.or_eq_false_iff] at hnS
    simp only [hasTotalCond] at hT
    cases hNFL : containsSub (pyUpper leg_ticker) "NFL"
    · cases hNBA : containsSub (pyUpper leg_ticker) "NBA"
      · rcases hL with (h | h) | h
        · simp [hNFL] at h
        · simp [hNBA] at h
        · simp [extract_market_type, hNFL, hNBA, h, hnS.1, hnS.2, hT]
      · simp [extract_market_type, hNFL, hNBA, hnS.1, hnS.2, hT]
    · simp [extract_market_type, hNFL, hnS.1, hnS.2, hT]
  · intro hL hnS hnT hM
    simp only [hasSpreadKw, Bool.or_eq_false_iff] at hnS
    simp only [hasTotalCond, Bool.or_eq_false_iff] at hnT
    cases hNFL : containsSub (pyUpper leg_ticker) "NFL"
    · cases hNBA : containsSub (pyUpper leg_ticker) "NBA"
      · cases hNHL : containsSub (pyUpper leg_ticker) "NHL"
        · simp [hasLeagueKw, hNFL, hNBA, hNHL] at hL
        · simp [hasMoneylineKw, leagueOf, hNFL, hNBA, hNHL,
            show ("NHL" ++ "GAME" : String) = "NHLGAME" from rfl] at hM
          simp [extract_market_type, hNFL, hNBA, hNHL, hnS.1, hnS.2,
            hnT.1.1.1, hnT.1.1.2, hnT.1.2, hnT.2, hM]
      · simp [hasMoneylineKw, leagueOf, hNFL, hNBA,
          show ("NBA" ++ "GAME" : String) = "NBAGAME" from rfl] at hM
        simp [extract_market_type, hNFL, hNBA, hnS.1, hnS.2,
          hnT.1.1.1, hnT.1.1.2, hnT.1.2, hnT.2, hM]
    · simp [hasMoneylineKw, leagueOf, hNFL,
        show ("NFL" ++ "GAME" : String) = "NFLGAME" from rfl] at hM
      simp [extract_market_type, hNFL, hnS.1, hnS.2,
        hnT.1.1.1, hnT.1.1.2, hnT.1.2, hnT.2, hM]
  · intro hL hnS hnT hnM hP
    simp only [hasSpreadKw, Bool.or_eq_false_iff] at hnS
    simp only [hasTotalCond, Bool.or_eq_false_iff] at hnT
    cases hNFL : containsSub (pyUpper leg_ticker) "NFL"
    · cases hNBA : containsSub (pyUpper leg_ticker) "NBA"
      · cases hNHL : containsSub (pyUpper leg_ticker) "NHL"
        · simp [hasLeagueKw, hNFL, hNBA, hNHL] at hL
        · simp [hasPropKw, leagueOf, hNFL, hNBA, hNHL] at hP
      · simp [hasPropKw, leagueOf, hNFL, hNBA] at hP
        simp [hasMoneylineKw, leagueOf, hNFL, hNBA,
          show ("NBA" ++ "GAME" : String) = "NBAGAME" from rfl] at hnM
        cases h4 : (containsSub (pyUpper leg_ticker) "NBAPTS" ||
            containsSub (pyUpper leg_ticker) "POINTS")
        · cases h5 : (containsSub (pyUpper leg_ticker) "AST" ||
              containsSub (pyUpper leg_ticker) "ASSISTS")
          · cases h6 : (containsSub (pyUpper leg_ticker) "REB" ||
                containsSub (pyUpper leg_ticker) "REBOUNDS")
            · cases h7 : (containsSub (pyUpper leg_ticker) "THREE" ||
                  containsSub (pyUpper leg_ticker) "3PT")
              · cases h8 : (containsSub (pyUpper leg_ticker) "NBASINGLEGAME" ||
                    containsSub (pyUpper leg_ticker) "VENBASINGLEGAME")
                · simp only [Bool.or_eq_false_iff] at h4 h5 h6 h7 h8
                  simp [h4.1, h4.2, h5.1, h5.2, h6.1, h6.2, h7.1, h7.2,
                    h8.1, h8.2] at hP
                · simp [extract_market_type, hNFL, hNBA, hnS.1, hnS.2,
                    hnT.1.1.1, hnT.1.1.2, hnT.1.2, hnT.2, hnM, h4, h5, h6, h7, h8]
              · simp [extract_market_type, hNFL, hNBA, hnS.1, hnS.2,
                  hnT.1.1.1, hnT.1.1.2, hnT.1.2, hnT.2, hnM, h4, h5, h6, h7]
            · simp [extract_market_type, hNFL, hNBA, hnS.1, hnS.2,
                hnT.1.1.1, hnT.1.1.2, hnT.1.2, hnT.2, hnM, h4, h5, h6]
          · simp [extract_market_type, hNFL, hNBA, hnS.1, hnS.2,
              hnT.1.1.1, hnT.1.1.2, hnT.1.2, hnT.2, hnM, h4, h5]
        · simp [extract_market_type, hNFL, hNBA, hnS.1, hnS.2,
            hnT.1.1.1, hnT.1.1.2, hnT.1.2, hnT.2, hnM, h4]
    · simp [hasPropKw, leagueOf, hNFL] at hP
      simp [hasMoneylineKw, leagueOf, hNFL,
        show ("NFL" ++ "GAME" : String) = "NFLGAME" from rfl] at hnM
      cases h4 : (containsSub (pyUpper leg_ticker) "NFLANYTD" ||
          containsSub (pyUpper leg_ticker) "NFLFIRSTTD")
      · cases h5 : (containsSub (pyUpper leg_ticker) "NFLSINGLEGAME" ||
            containsSub (pyUpper leg_ticker) "VENFLSINGLEGAME")
        · simp only [Bool.or_eq_false_iff] at h4 h5
          simp [h4.1, h4.2, h5.1, h5.2] at hP
        · cases h6 : (containsSub (pyUpper leg_ticker) "PASS" ||
              containsSub (pyUpper leg_ticker) "YDS")
          · cases h7 : containsSub (pyUpper leg_ticker) "RUSH"
            · cases h8 : containsSub (pyUpper leg_ticker) "REC"
              · simp [extract_market_type, hNFL, hnS.1, hnS.2,
                  hnT.1.1.1, hnT.1.1.2, hnT.1.2, hnT.2, hnM, h4, h5, h6, h7, h8]
              · simp [extract_market_type, hNFL, hnS.1, hnS.2,
                  hnT.1.1.1, hnT.1.1.2, hnT.1.2, hnT.2, hnM, h4, h5, h6, h7, h8]
            · simp [extract_market_type, hNFL, hnS.1, hnS.2,
                hnT.1.1.1, hnT.1.1.2, hnT.1.2, hnT.2, hnM, h4, h5, h6, h7]
          · simp [extract_market_type, hNFL, hnS.1, hnS.2,
              hnT.1.1.1, hnT.1.1.2, hnT.1.2, hnT.2, hnM, h4, h5, h6]
      · simp [extract_market_type, hNFL, hnS.1, hnS.2,
          hnT.1.1.1, hnT.1.1.2, hnT.1.2, hnT.2, hnM, h4]


/-- Witness for C7: a league+spread identifier classifies as Spreads. -/
theorem classifier_precedence_witness :
    (extract_market_type "KXNFLSPREAD-KC" "yes").2 = "Spreads" :=
  (classifier_precedence "KXNFLSPREAD-KC" "yes").1 (by decide) (by decide)


end SingleParlayQuoter

namespace KalshiClient

/-- Helper: a failed attempt yields an error that carries the request
info of that attempt. -/
theorem confirm_attempt_error_shape (api_base api_key_id : String)
    (sign : String → String) (quote_id ts : String) (o : NetOutcome)
    (h : isSuccessStatus o = false) :
    ∃ e : ConfirmError,
      confirm_attempt api_base api_key_id sign quote_id ts o = .error e ∧
      e.request_info = some ⟨"PUT", api_base ++ confirm_path quote_id,
        confirm_headers api_key_id sign ts quote_id⟩ := by
  cases o with
  | resp s t =>
    simp only [isSuccessStatus] at h
    exact ⟨⟨toString s ++ " Client Error for url: " ++ (api_base ++ confirm_path quote_id),
      some ⟨"PUT", api_base ++ confirm_path quote_id,
        confirm_headers api_key_id sign ts quote_id⟩⟩, by simp [confirm_attempt, h], rfl⟩
  | exc m =>
    exact ⟨⟨m, some ⟨"PUT", api_base ++ confirm_path quote_id,
      confirm_headers api_key_id sign ts quote_id⟩⟩, by simp [confirm_attempt], rfl⟩

/-- Helper: a 200/204 attempt yields the normalised success result
with that attempt's request info. -/
theorem confirm_attempt_ok_shape (api_base api_key_id : String)
    (sign : String → String) (quote_id ts : String) (s : Nat) (t : String)
    (h : (s == 200 || s == 204) = true) :
    confirm_attempt api_base api_key_id sign quote_id ts (.resp s t) =
      .ok ⟨if s == 200 && t != "" then .parsed t else .synthetic "confirmed" quote_id,
        ⟨"PUT", api_base ++ confirm_path quote_id,
         confirm_headers api_key_id sign ts quote_id⟩⟩ := by
  simp [confirm_attempt, h]

end KalshiClient

namespace KalshiClient

/-- C4: `confirm_quote` makes at most 3 attempts, stopping at the first
success; every attempt regenerates the signature from that attempt's
fresh timestamp; it sleeps 0.5 s after the first failed attempt and
1.0 s after the second; an attempt succeeds on HTTP 200 or 204, with
204 (or an empty body) normalised to a synthetic result carrying status
"confirmed" and the quote id; and when all 3 attempts fail, the last
error is raised carrying the attempted request's method, URL and
headers. -/
theorem confirm_quote_retry_behaviour (api_base api_key_id : String)
    (sign : String → String) (quote_id : String)
    (clock : Nat → String) (net : Nat → NetOutcome)
    (trace : List AttemptRec) (res : Except ConfirmError ConfirmResult)
    (heq : confirm_quote api_base api_key_id sign quote_id clock net = (trace, res)) :
    (trace.length = if isSuccessStatus (net 1) then 1
      else if isSuccessStatus (net 2) then 2 else 3) ∧
    (∀ i (h : i < trace.length),
      (trace.get ⟨i, h⟩).timestamp = clock (i + 1) ∧
      (trace.get ⟨i, h⟩).headers =
        confirm_headers api_key_id sign (clock (i + 1)) quote_id) ∧
    (∀ i (h : i < trace.length),
      (trace.get ⟨i, h⟩).waitAfterMs =
        if i + 1 < trace.length then some (500 * (i + 1)) else none) ∧
    (∀ s t, net 1 = .resp s t → (s == 200 || s == 204) = true →
      res = .ok ⟨if s == 200 && t != "" then .parsed t
        else .synthetic "confirmed" quote_id,
        ⟨"PUT", api_base ++ confirm_path quote_id,
         confirm_headers api_key_id sign (clock 1) quote_id⟩⟩) ∧
    (∀ s t, isSuccessStatus (net 1) = false → net 2 = .resp s t →
      (s == 200 || s == 204) = true →
      res = .ok ⟨if s == 200 && t != "" then .parsed t
        else .synthetic "confirmed" quote_id,
        ⟨"PUT", api_base ++ confirm_path quote_id,
         confirm_headers api_key_id sign (clock 2) quote_id⟩⟩) ∧
    (∀ s t, isSuccessStatus (net 1) = false → isSuccessStatus (net 2) = false →
      net 3 = .resp s t → (s == 200 || s == 204) = true →
      res = .ok ⟨if s == 200 && t != "" then .parsed t
        else .synthetic "confirmed" quote_id,
        ⟨"PUT", api_base ++ confirm_path quote_id,
         confirm_headers api_key_id sign (clock 3) quote_id⟩⟩) ∧
    (isSuccessStatus (net 1) = false → isSuccessStatus (net 2) = false →
      isSuccessStatus (net 3) = false →
      ∃ e, res = .error e ∧ e.request_info =
        some ⟨"PUT", api_base ++ confirm_path quote_id,
          confirm_headers api_key_id sign (clock 3) quote_id⟩) := by
  cases H1 : isSuccessStatus (net 1) with
  | true =>
    cases o1 : net 1 with
    | exc m => rw [o1] at H1; simp [isSuccessStatus] at H1
    | resp s t =>
      rw [o1] at H1
      simp only [isSuccessStatus] at H1
      have hout : confirm_quote api_base api_key_id sign quote_id clock net =
          ([⟨clock 1, confirm_headers api_key_id sign (clock 1) quote_id, none⟩],
           .ok ⟨if s == 200 && t != "" then .parsed t
             else .synthetic "confirmed" quote_id,
             ⟨"PUT", api_base ++ confirm_path quote_id,
              confirm_headers api_key_id sign (clock 1) quote_id⟩⟩) := by
        simp only [confirm_quote]
        rw [o1, confirm_attempt_ok_shape api_base api_key_id sign quote_id
          (clock 1) s t H1]
      rw [hout] at heq
      have htr := congrArg Prod.fst heq
      have hres := congrArg Prod.snd heq
      simp only at htr hres
      subst htr hres
      refine ⟨by simp [isSuccessStatus, H1], ?_, ?_, ?_, ?_, ?_, ?_⟩
      · intro i h
        simp only [List.length_cons, List.length_nil] at h
        replace h : i < 1 := by omega
        interval_cases i
        simp
      · intro i h
        simp only [List.length_cons, List.length_nil] at h
        replace h : i < 1 := by omega
        interval_cases i
        simp
      · intro s' t' ho hflag
        injection ho with hs ht
        subst hs ht
        rfl
      · intro s' t' Hf _ _
        exact Bool.noConfusion Hf
      · intro s' t' Hf _ _ _
        exact Bool.noConfusion Hf
      · intro Hf _ _
        exact Bool.noConfusion Hf
  | false =>
    obtain ⟨e1, he1, hri1⟩ := confirm_attempt_error_shape api_base api_key_id sign
      quote_id (clock 1) (net 1) H1
    cases H2 : isSuccessStatus (net 2) with
    | true =>
      cases o2 : net 2 with
      | exc m => rw [o2] at H2; simp [isSuccessStatus] at H2
      | resp s t =>
        rw [o2] at H2
        simp only [isSuccessStatus] at H2
        have hout : confirm_quote api_base api_key_id sign quote_id clock net =
            ([⟨clock 1, confirm_headers api_key_id sign (clock 1) quote_id, some 500⟩,
              ⟨clock 2, confirm_headers api_key_id sign (clock 2) quote_id, none⟩],
             .ok ⟨if s == 200 && t != "" then .parsed t
               else .synthetic "confirmed" quote_id,
               ⟨"PUT", api_base ++ confirm_path quote_id,
                confirm_headers api_key_id sign (clock 2) quote_id⟩⟩) := by
          simp only [confirm_quote]
          rw [he1, o2, confirm_attempt_ok_shape api_base api_key_id sign quote_id
            (clock 2) s t H2]
        rw [hout] at heq
        have htr := congrArg Prod.fst heq
        have hres := congrArg Prod.snd heq
        simp only at htr hres
        subst htr hres
        refine ⟨by simp [H1, isSuccessStatus, H2], ?_, ?_, ?_, ?_, ?_, ?_⟩
        · intro i h
          simp only [List.length_cons, List.length_nil] at h
          replace h : i < 2 := by omega
          interval_cases i <;> simp
        · intro i h
          simp only [List.length_cons, List.length_nil] at h
          replace h : i < 2 := by omega
          interval_cases i <;> simp
        · intro s' t' ho hflag
          rw [ho] at H1
          simp only [isSuccessStatus] at H1
          rw [hflag] at H1
          exact Bool.noConfusion H1
        · intro s' t' _ ho hflag
          injection ho with hs ht
          subst hs ht
          rfl
        · intro s' t' _ Hf _ _
          exact Bool.noConfusion Hf
        · intro _ Hf _
          exact Bool.noConfusion Hf
    | false =>
      obtain ⟨e2, he2, hri2⟩ := confirm_attempt_error_shape api_base api_key_id sign
        quote_id (clock 2) (net 2) H2
      cases H3 : isSuccessStatus (net 3) with
      | true =>
        cases o3 : net 3 with
        | exc m => rw [o3] at H3; simp [isSuccessStatus] at H3
        | resp s t =>
          rw [o3] at H3
          simp only [isSuccessStatus] at H3
          have hout : confirm_quote api_base api_key_id sign quote_id clock net =
              ([⟨clock 1, confirm_headers api_key_id sign (clock 1) quote_id, some 500⟩,
                ⟨clock 2, confirm_headers api_key_id sign (clock 2) quote_id, some 1000⟩,
                ⟨clock 3, confirm_headers api_key_id sign (clock 3) quote_id, none⟩],
               .ok ⟨if s == 200 && t != "" then .parsed t
                 else .synthetic "confirmed" quote_id,
                 ⟨"PUT", api_base ++ confirm_path quote_id,
                  confirm_headers api_key_id sign (clock 3) quote_id⟩⟩) := by
            simp only [confirm_quote]
            rw [he1, he2, o3, confirm_attempt_ok_shape api_base api_key_id sign quote_id
              (clock 3) s t H3]
          rw [hout] at heq
          have htr := congrArg Prod.fst heq
          have hres := congrArg Prod.snd heq
          simp only at htr hres
          subst htr hres
          refine ⟨by simp [H1, H2, isSuccessStatus, H3], ?_, ?_, ?_, ?_, ?_, ?_⟩
          · intro i h
            simp only [List.length_cons, List.length_nil] at h
            replace h : i < 3 := by omega
            interval_cases i <;> simp
          · intro i h
            simp only [List.length_cons, List.length_nil] at h
            replace h : i < 3 := by omega
            interval_cases i <;> simp
          · intro s' t' ho hflag
            rw [ho] at H1
            simp only [isSuccessStatus] at H1
            rw [hflag] at H1
            exact Bool.noConfusion H1
          · intro s' t' _ ho hflag
            rw [ho] at H2
            simp only [isSuccessStatus] at H2
            rw [hflag] at H2
            exact Bool.noConfusion H2
          · intro s' t' _ _ ho hflag
            injection ho with hs ht
            subst hs ht
            rfl
          · intro _ _ Hf
            exact Bool.noConfusion Hf
      | false =>
        obtain ⟨e3, he3, hri3⟩ := confirm_attempt_error_shape api_base api_key_id sign
          quote_id (clock 3) (net 3) H3
        have hout : confirm_quote api_base api_key_id sign quote_id clock net =
            ([⟨clock 1, confirm_headers api_key_id sign (clock 1) quote_id, some 500⟩,
              ⟨clock 2, confirm_headers api_key_id sign (clock 2) quote_id, some 1000⟩,
              ⟨clock 3, confirm_headers api_key_id sign (clock 3) quote_id, none⟩],
             .error e3) := by
          simp only [confirm_quote]
          rw [he1, he2, he3]
        rw [hout] at heq
        have htr := congrArg Prod.fst heq
        have hres := congrArg Prod.snd heq
        simp only at htr hres
        subst htr hres
        refine ⟨by simp [H1, H2], ?_, ?_, ?_, ?_, ?_, ?_⟩
        · intro i h
          simp only [List.length_cons, List.length_nil] at h
          replace h : i < 3 := by omega
          interval_cases i <;> simp
        · intro i h
          simp only [List.length_cons, List.length_nil] at h
          replace h : i < 3 := by omega
          interval_cases i <;> simp
        · intro s' t' ho hflag
          rw [ho] at H1
          simp only [isSuccessStatus] at H1
          rw [hflag] at H1
          exact Bool.noConfusion H1
        · intro s' t' _ ho hflag
          rw [ho] at H2
          simp only [isSuccessStatus] at H2
          rw [hflag] at H2
          exact Bool.noConfusion H2
        · intro s' t' _ _ ho hflag
          rw [ho] at H3
          simp only [isSuccessStatus] at H3
          rw [hflag] at H3
          exact Bool.noConfusion H3
        · intro _ _ _
          exact ⟨e3, rfl, hri3⟩

end KalshiClient

namespace SingleParlayQuoter

/-- Helper: the first-match update of `mark_matched` never clears a
`matched` flag that is already true. -/
theorem mark_matched_preserves_matched (now : String) (qid : Option String)
    (l : List QuoteEntry) (i : Nat) (q : QuoteEntry)
    (hq : l[i]? = some q) (hm : q.matched = true) :
    ∃ q', (mark_matched now qid l)[i]? = some q' ∧ q'.matched = true := by
  induction l generalizing i with
  | nil => simp at hq
  | cons a l ih =>
    cases i with
    | zero =>
      simp at hq
      subst hq
      by_cases h : (a.quote_id == qid) = true
      · exact ⟨{ a with matched := true, matched_at := some now },
          by simp [mark_matched, h], rfl⟩
      · exact ⟨a, by simp [mark_matched, h], hm⟩
    | succ n =>
      simp at hq
      by_cases h : (a.quote_id == qid) = true
      · exact ⟨q, by simp [mark_matched, h, hq], hm⟩
      · obtain ⟨q', hq', hm'⟩ := ih n hq
        exact ⟨q', by simp [mark_matched, h, hq'], hm'⟩

/-- Helper: `mark_matched` preserves the length of the history. -/
theorem mark_matched_length (now : String) (qid : Option String)
    (l : List QuoteEntry) :
    (mark_matched now qid l).length = l.length := by
  induction l with
  | nil => rfl
  | cons a l ih =>
    by_cases h : (a.quote_id == qid) = true <;> simp [mark_matched, h, ih]

/-- C5: once a quote-history entry's `matched` flag is true, no stream
event handled by `handle_ws_message` (in particular `quote_accepted`,
`quote_created` or `quote_confirmed`) ever sets it back to false. -/
theorem matched_flag_monotonic (now : String) (st : AppState) (msg : WsMessage)
    (i : Nat) (q : QuoteEntry)
    (hq : st.quote_history[i]? = some q) (hm : q.matched = true) :
    ∃ q', (handle_ws_message now st msg).1.quote_history[i]? = some q' ∧
      q'.matched = true := by
  cases msg with
  | rfq_created rfq => exact ⟨q, hq, hm⟩
  | rfq_deleted r => exact ⟨q, hq, hm⟩
  | quote_accepted a b c d e =>
    exact mark_matched_preserves_matched now a st.quote_history i q hq hm
  | quote_created a =>
    exact mark_matched_preserves_matched now a st.quote_history i q hq hm
  | quote_confirmed a =>
    exact mark_matched_preserves_matched now a st.quote_history i q hq hm
  | other => exact ⟨q, hq, hm⟩

/-- Witness for C5 on a concrete matched entry and a `quote_created`
event for an unrelated quote id. -/
theorem matched_flag_monotonic_witness :
    ∃ q', (handle_ws_message "T2"
        ⟨[⟨"T1", "r1", some "q1", "M", "0.0010", "0.5600", "sent", true, some "T1", none⟩],
         [], false⟩
        (.quote_created (some "q9"))).1.quote_history[0]? = some q' ∧
      q'.matched = true :=
  matched_flag_monotonic "T2"
    ⟨[⟨"T1", "r1", some "q1", "M", "0.0010", "0.5600", "sent", true, some "T1", none⟩],
     [], false⟩
    (.quote_created (some "q9")) 0
    ⟨"T1", "r1", some "q1", "M", "0.0010", "0.5600", "sent", true, some "T1", none⟩
    rfl rfl

/-- C6: every invocation of `send_quote` appends exactly one entry to
the quote history — with status "sent" on a successful create-quote
call and "error" on a failing one — and no stream-event handling ever
removes an entry (the history length is preserved by
`handle_ws_message`). -/
theorem quote_history_append_only (now rfq_id market_ticker yes_bid no_bid : String)
    (outcome : Except String CreateResult) (quote_history : List QuoteEntry)
    (st : AppState) (msg : WsMessage) :
    (∃ entry : QuoteEntry,
      (send_quote now rfq_id market_ticker yes_bid no_bid outcome quote_history).1 =
        quote_history ++ [entry] ∧
      entry.status = (match outcome with | .ok _ => "sent" | .error _ => "error")) ∧
    (send_quote now rfq_id market_ticker yes_bid no_bid outcome quote_history).1.length =
      quote_history.length + 1 ∧
    (handle_ws_message now st msg).1.quote_history.length = st.quote_history.length := by
  refine ⟨?_, ?_, ?_⟩
  · cases outcome with
    | ok r => exact ⟨_, rfl, rfl⟩
    | error e => exact ⟨_, rfl, rfl⟩
  · cases outcome <;> simp [send_quote]
  · cases msg <;> simp [handle_ws_message, mark_matched_length]

/-- Helper: the failure branch of the orchestrator's confirmation
update preserves every entry's `auto_confirmed` flag and never turns
`confirmed` on. -/
theorem app_confirm_update_error_preserves (qid : Option String) (err now : String)
    (l : List AcceptedEntry) (i : Nat) (q : AcceptedEntry)
    (hq : l[i]? = some q) :
    ∃ q', (app_confirm_update qid (.error err) now l)[i]? = some q' ∧
      q'.auto_confirmed = q.auto_confirmed ∧
      (q'.confirmed = q.confirmed ∨ q'.confirmed = false) := by
  induction l generalizing i with
  | nil => simp at hq
  | cons a l ih =>
    cases i with
    | zero =>
      simp at hq
      subst hq
      by_cases h : (a.quote_id == qid) = true
      · exact ⟨{ a with confirmed := false, confirmation_error := some err },
          by simp [app_confirm_update, h], rfl, Or.inr rfl⟩
      · exact ⟨a, by simp [app_confirm_update, h], rfl, Or.inl rfl⟩
    | succ n =>
      simp at hq
      by_cases h : (a.quote_id == qid) = true
      · exact ⟨q, by simp [app_confirm_update, h, hq], rfl, Or.inl rfl⟩
      · obtain ⟨q', hq', ha', hc'⟩ := ih n hq
        exact ⟨q', by simp [app_confirm_update, h, hq'], ha', hc'⟩

/-- C9: on a `quote_accepted` event with auto-confirm enabled, the
confirm task is dispatched and the recorded AcceptedQuote entry already
has `auto_confirmed = true` while `confirmed = false`; a subsequently
failing confirmation never changes `auto_confirmed` and never sets
`confirmed` to true — so `auto_confirmed = true` does not imply
`confirmed = true`. -/
theorem auto_confirm_flag_behaviour (now now2 err : String) (st : AppState)
    (quote_id rfq_id : Option String) (market_ticker : String)
    (yes_price no_price : Option String)
    (hauto : st.auto_confirm_enabled = true) :
    (handle_ws_message now st
      (.quote_accepted quote_id rfq_id market_ticker yes_price no_price)).2 =
      [DispatchedTask.confirm_quote_task quote_id rfq_id market_ticker] ∧
    (∃ entry : AcceptedEntry,
      (handle_ws_message now st
        (.quote_accepted quote_id rfq_id market_ticker yes_price no_price)).1.accepted_quotes.getLast? =
          some entry ∧
      entry.auto_confirmed = true ∧ entry.confirmed = false) ∧
    (∀ (i : Nat) (q : AcceptedEntry), (handle_ws_message now st
        (.quote_accepted quote_id rfq_id market_ticker yes_price no_price)).1.accepted_quotes[i]? =
          some q →
      ∃ q', (app_confirm_update quote_id (.error err) now2
          (handle_ws_message now st
            (.quote_accepted quote_id rfq_id market_ticker yes_price no_price)).1.accepted_quotes)[i]? =
            some q' ∧
        q'.auto_confirmed = q.auto_confirmed ∧
        (q'.confirmed = q.confirmed ∨ q'.confirmed = false)) := by
  refine ⟨by simp [handle_ws_message, hauto], ?_, ?_⟩
  · refine ⟨⟨now, quote_id, rfq_id, market_ticker, yes_price, no_price,
      false, true, none, none⟩, ?_, rfl, rfl⟩
    simp [handle_ws_message, hauto]
  · intro i q hq
    exact app_confirm_update_error_preserves quote_id err now2 _ i q hq

/-- Witness for C9: with auto-confirm on, the confirm task is
dispatched for the accepted quote. -/
theorem auto_confirm_flag_behaviour_witness :
    (handle_ws_message "T1" ⟨[], [], true⟩
      (.quote_accepted (some "q1") (some "r1") "M" none none)).2 =
      [DispatchedTask.confirm_quote_task (some "q1") (some "r1") "M"] :=
  (auto_confirm_flag_behaviour "T1" "T2" "boom" ⟨[], [], true⟩ (some "q1") (some "r1")
    "M" none none rfl).1

end SingleParlayQuoter

namespace KalshiClient

/-- Counterexample to C2: at a concrete input, the request prepared by
`confirm_quote` does carry a `Content-Type: application/json` header —
the code adds it explicitly on every attempt — refuting the claim that
no Content-Type header is sent. -/
theorem confirm_content_type_counterexample :
    ("Content-Type", "application/json") ∈
      (confirm_prepared_request "https://api.elections.kalshi.com" "KEY"
        (fun m => m) "1700000000000" "q1").headers := by
  simp [confirm_prepared_request, confirm_headers, get_auth_headers]

/-- C2 (amended): every request issued by `confirm_quote` is a PUT to
the confirm endpoint carrying no request body and no Content-Length
header, but it does carry a `Content-Type: application/json` header
alongside the three authentication headers. -/
theorem confirm_request_shape (api_base api_key_id : String)
    (sign : String → String) (ts quote_id : String) :
    (confirm_prepared_request api_base api_key_id sign ts quote_id).method = "PUT" ∧
    (confirm_prepared_request api_base api_key_id sign ts quote_id).url =
      api_base ++ confirm_path quote_id ∧
    (confirm_prepared_request api_base api_key_id sign ts quote_id).body = none ∧
    ("Content-Type", "application/json") ∈
      (confirm_prepared_request api_base api_key_id sign ts quote_id).headers ∧
    (∀ h ∈ (confirm_prepared_request api_base api_key_id sign ts quote_id).headers,
      h.1 ≠ "Content-Length") := by
  refine ⟨rfl, rfl, rfl, ?_, ?_⟩
  · simp [confirm_prepared_request, confirm_headers, get_auth_headers]
  · intro h hh
    simp [confirm_prepared_request, confirm_headers, get_auth_headers] at hh
    rcases hh with h | h | h | h <;> simp [h]

/-- Witness for C2 (amended) at a concrete confirm request. -/
theorem confirm_request_shape_witness :
    (confirm_prepared_request "https://api.elections.kalshi.com" "KEY"
      (fun m => m) "1700000000000" "q1").body = none ∧
    ("KALSHI-ACCESS-KEY", "KEY").1 ≠ "Content-Length" :=
  ⟨(confirm_request_shape "https://api.elections.kalshi.com" "KEY"
      (fun m => m) "1700000000000" "q1").2.2.1,
   (confirm_request_shape "https://api.elections.kalshi.com" "KEY"
      (fun m => m) "1700000000000" "q1").2.2.2.2 ("KALSHI-ACCESS-KEY", "KEY")
      (by simp [confirm_prepared_request, confirm_headers, get_auth_headers])⟩

/-- Counterexample to C3: calling the effective `create_quote` with
absent bid arguments fails (Python raises `TypeError` for the missing
required parameters); no request body containing "0.0000" is ever
sent. -/
theorem create_quote_absent_bids_counterexample :
    (create_quote_effective_call "rfq-1" none none true).isOk = false := by
  rfl

/-- C3 (amended): in the effective `create_quote` (the later of the
two definitions) both bid values are mandatory arguments — a call
omitting either fails with a TypeError before any request is built,
while float-parsing bids are sent verbatim; the "0.0000" defaulting for
absent bids exists only in the earlier, shadowed definition. -/
theorem create_quote_bids_mandatory (rfq_id y n : String)
    (yes_bid no_bid : Option String) (rest : Bool) :
    (pyFloatParses y = true → pyFloatParses n = true →
      create_quote_effective_call rfq_id (some y) (some n) rest =
        .ok ⟨rfq_id, y, n, rest⟩) ∧
    (yes_bid = none ∨ no_bid = none →
      create_quote_effective_call rfq_id yes_bid no_bid rest =
        .error "TypeError: create_quote missing required bid argument") ∧
    create_quote_v1_body rfq_id none none rest = ⟨rfq_id, "0.0000", "0.0000", rest⟩ := by
  refine ⟨?_, ?_, rfl⟩
  · intro hy hn
    simp [create_quote_effective_call, create_quote_body, hy, hn]
  · intro h
    rcases h with h | h
    · subst h
      cases no_bid <;> simp [create_quote_effective_call]
    · subst h
      cases yes_bid <;> simp [create_quote_effective_call]

/-- Witness for C3 (amended): both bids supplied and valid are sent
verbatim. -/
theorem create_quote_bids_mandatory_witness :
    create_quote_effective_call "rfq-1" (some "0.0010") (some "0.5600") false =
      .ok ⟨"rfq-1", "0.0010", "0.5600", false⟩ :=
  (create_quote_bids_mandatory "rfq-1" "0.0010" "0.5600" none none false).1
    (by decide) (by decide)

/-- C10: in the effective `create_quote`, a bid string that does not
parse as a float does not raise a validation error: both bid values are
silently replaced by "0.50" and the quote request is still sent. -/
theorem create_quote_invalid_bid_fallback (rfq_id y n : String) (rest : Bool)
    (h : pyFloatParses y = false ∨ pyFloatParses n = false) :
    create_quote_effective_call rfq_id (some y) (some n) rest =
      .ok ⟨rfq_id, "0.50", "0.50", rest⟩ := by
  rcases h with h | h <;>
    simp [create_quote_effective_call, create_quote_body, h]

/-- Witness for C10 with the unparsable bid string "abc". -/
theorem create_quote_invalid_bid_fallback_witness :
    create_quote_effective_call "rfq-1" (some "abc") (some "0.56") true =
      .ok ⟨"rfq-1", "0.50", "0.50", true⟩ :=
  create_quote_invalid_bid_fallback "rfq-1" "abc" "0.56" true (Or.inl (by decide))

/-- Witness for C4: with a network that always answers HTTP 500, all
three attempts fail and the raised error carries the last attempted
request's method, URL and headers. -/
theorem confirm_quote_retry_behaviour_witness :
    ∃ e, (confirm_quote "https://api.elections.kalshi.com" "KEY" (fun m => m) "q1"
        (fun _ => "TS") (fun _ => NetOutcome.resp 500 "boom")).2 = .error e ∧
      e.request_info = some ⟨"PUT",
        "https://api.elections.kalshi.com" ++ confirm_path "q1",
        confirm_headers "KEY" (fun m => m) "TS" "q1"⟩ :=
  (confirm_quote_retry_behaviour "https://api.elections.kalshi.com" "KEY" (fun m => m)
      "q1" (fun _ => "TS") (fun _ => NetOutcome.resp 500 "boom")
      (confirm_quote "https://api.elections.kalshi.com" "KEY" (fun m => m) "q1"
        (fun _ => "TS") (fun _ => NetOutcome.resp 500 "boom")).1
      (confirm_quote "https://api.elections.kalshi.com" "KEY" (fun m => m) "q1"
        (fun _ => "TS") (fun _ => NetOutcome.resp 500 "boom")).2
      rfl).2.2.2.2.2.2 rfl rfl rfl

end KalshiClient
